import Mathlib

/-!
Verification of `verification/verify_dashboard.py`.

The script drives a headless browser through a fixed linear sequence of
side-effecting calls (launch, new page, sleep, goto, wait_for_selector,
title, screenshot) wrapped in a `with sync_playwright()` block and a
`try/except/finally`.  We embed it shallowly: an `Env` records, for each
external call, whether it returns normally or raises (carrying the
exception's message text), and `verify_app` replays the script's exact
control flow over that environment, producing the trace of observable
events (console prints, file writes, browser lifecycle) together with the
run's outcome (normal return or a propagated exception).
-/

namespace VerifyDashboard

/-- Message text of a Python exception (`str(e)`). -/
abbrev ExnMsg := String

/-- One possible behaviour of each external call the script makes.
`Except.ok` means the call returns normally; `Except.error m` means it
raises an exception whose message is `m`.  `titleResult` carries the page
title string on success. -/
structure Env where
  launchResult : Except ExnMsg Unit
  newPageResult : Except ExnMsg Unit
  sleepResult : Except ExnMsg Unit
  gotoResult : Except ExnMsg Unit
  waitForSelectorResult : Except ExnMsg Unit
  titleResult : Except ExnMsg String
  screenshotDashboardResult : Except ExnMsg Unit
  screenshotErrorResult : Except ExnMsg Unit
  closeResult : Except ExnMsg Unit

/-- Observable events of a run.  `launchBrowser ok` records whether the
launch call produced a live browser process; `fileWrite` is emitted only
when a screenshot call succeeds (a raising screenshot call writes no
file); `stopPlaywright` is the `with sync_playwright()` context exit,
which tears down any browser process the driver spawned. -/
inductive Event where
  | launchBrowser (ok : Bool)
  | newPage
  | printLine (s : String)
  | sleepSeconds (n : Nat)
  | gotoUrl (url : String)
  | waitForSelector (sel : String) (timeoutMs : Nat)
  | readTitle
  | screenshotCall (path : String)
  | fileWrite (path : String)
  | closeBrowser (ok : Bool)
  | stopPlaywright
deriving DecidableEq

/-- `page.goto("http://localhost:3000")`, line 16 of the script. -/
def targetUrl : String := "http://localhost:3000"

/-- `screenshot_path = "verification/dashboard.png"`, line 26. -/
def dashboardPath : String := "verification/dashboard.png"

/-- `page.screenshot(path="verification/error.png")`, line 33. -/
def errorPath : String := "verification/error.png"

/-- The body of the `try` block (lines 14-28): print, goto, print,
wait_for_selector, title read + print, success screenshot + print.
Returns the events performed and the block's outcome. -/
def tryBlock (env : Env) : List Event × Except ExnMsg Unit :=
  match env.gotoResult with
  | .error e => ([.printLine "Navigating to http://localhost:3000", .gotoUrl targetUrl], .error e)
  | .ok _ =>
    match env.waitForSelectorResult with
    | .error e =>
      ([.printLine "Navigating to http://localhost:3000", .gotoUrl targetUrl,
        .printLine "Waiting for dashboard...", .waitForSelector "h1" 30000], .error e)
    | .ok _ =>
      match env.titleResult with
      | .error e =>
        ([.printLine "Navigating to http://localhost:3000", .gotoUrl targetUrl,
          .printLine "Waiting for dashboard...", .waitForSelector "h1" 30000,
          .readTitle], .error e)
      | .ok title =>
        match env.screenshotDashboardResult with
        | .error e =>
          ([.printLine "Navigating to http://localhost:3000", .gotoUrl targetUrl,
            .printLine "Waiting for dashboard...", .waitForSelector "h1" 30000,
            .readTitle, .printLine ("Page title: " ++ title),
            .screenshotCall dashboardPath], .error e)
        | .ok _ =>
          ([.printLine "Navigating to http://localhost:3000", .gotoUrl targetUrl,
            .printLine "Waiting for dashboard...", .waitForSelector "h1" 30000,
            .readTitle, .printLine ("Page title: " ++ title),
            .screenshotCall dashboardPath, .fileWrite dashboardPath,
            .printLine ("Screenshot saved to " ++ dashboardPath)], .ok ())

/-- The `except Exception as e` handler (lines 30-33): print the error
message, then a best-effort screenshot to the error path.  If that
screenshot itself raises, its exception propagates (the handler's outcome
becomes that new error). -/
def exceptClause (env : Env) (e : ExnMsg) : List Event × Except ExnMsg Unit :=
  match env.screenshotErrorResult with
  | .error e2 => ([.printLine ("Error: " ++ e), .screenshotCall errorPath], .error e2)
  | .ok _ =>
    ([.printLine ("Error: " ++ e), .screenshotCall errorPath, .fileWrite errorPath], .ok ())

/-- The whole `try/except/finally` (lines 14-35).  Python semantics: the
handler runs only when the try block raises; the `finally` clause
(`browser.close()`) runs on every path, and an exception raised by the
`finally` clause replaces any in-flight exception. -/
def tryExceptFinally (env : Env) : List Event × Except ExnMsg Unit :=
  let t := tryBlock env
  let afterHandler : List Event × Except ExnMsg Unit :=
    match t.2 with
    | .ok _ => (t.1, .ok ())
    | .error e =>
      let h := exceptClause env e
      (t.1 ++ h.1, h.2)
  match env.closeResult with
  | .error ce => (afterHandler.1 ++ [.closeBrowser false], .error ce)
  | .ok _ => (afterHandler.1 ++ [.closeBrowser true], afterHandler.2)

/-- Result of one execution of `verify_app`: the ordered trace of events
and the outcome seen by the caller (`.ok ()` = normal return, `.error m`
= an exception with message `m` propagates out). -/
structure RunResult where
  trace : List Event
  outcome : Except ExnMsg Unit

/-- `verify_app()` (lines 5-35).  Inside `with sync_playwright() as p`:
launch, new_page, a fixed 10-second sleep (all before the `try` block, so
exceptions there skip the handler and the `finally` clause), then the
`try/except/finally`.  The context manager's exit (`stopPlaywright`) runs
on every path, normal or exceptional, and any exception then re-raises
out of `verify_app`. -/
def verify_app (env : Env) : RunResult :=
  match env.launchResult with
  | .error e => ⟨[.launchBrowser false, .stopPlaywright], .error e⟩
  | .ok _ =>
    match env.newPageResult with
    | .error e => ⟨[.launchBrowser true, .newPage, .stopPlaywright], .error e⟩
    | .ok _ =>
      match env.sleepResult with
      | .error e =>
        ⟨[.launchBrowser true, .newPage, .printLine "Waiting for app to start...",
          .sleepSeconds 10, .stopPlaywright], .error e⟩
      | .ok _ =>
        let b := tryExceptFinally env
        ⟨[.launchBrowser true, .newPage, .printLine "Waiting for app to start...",
          .sleepSeconds 10] ++ b.1 ++ [.stopPlaywright], b.2⟩

/-- Paths of the files actually written during a run, in order. -/
def writtenPaths (tr : List Event) : List String :=
  tr.filterMap fun ev =>
    match ev with
    | .fileWrite p => some p
    | _ => none

/-- Whether a browser process is still alive after replaying the trace:
a successful launch makes one alive; a successful `browser.close()` or
the playwright context exit releases it. -/
def browserAliveAfter (tr : List Event) : Bool :=
  tr.foldl
    (fun alive ev =>
      match ev with
      | .launchBrowser true => true
      | .closeBrowser true => false
      | .stopPlaywright => false
      | _ => alive)
    false

/-- The verification steps proper, in the order the spec lists them:
the startup sleep, the navigation, the element wait, the title read, the
success-screenshot call.  Used to state the strict linear ordering. -/
def isStepEvent : Event → Bool
  | .sleepSeconds _ => true
  | .gotoUrl _ => true
  | .waitForSelector _ _ => true
  | .readTitle => true
  | .screenshotCall p => p == dashboardPath
  | _ => false

/-- The sub-trace of verification-step events. -/
def stepEvents (tr : List Event) : List Event := tr.filter isStepEvent

/-- The canonical chain of verification steps in source order. -/
def mainStepChain : List Event :=
  [.sleepSeconds 10, .gotoUrl targetUrl, .waitForSelector "h1" 30000,
   .readTitle, .screenshotCall dashboardPath]

/-- Every fixed parameter as it appears in an event: the sleep is 10
seconds, the wait is for selector "h1" with a 30000 ms timeout, and
navigation targets http://localhost:3000. -/
def hasFixedParams : Event → Bool
  | .sleepSeconds n => n == 10
  | .gotoUrl u => u == targetUrl
  | .waitForSelector s t => s == "h1" && t == 30000
  | _ => true

/-- Each external call is attempted at most once in a trace (no retry). -/
def noRetry (tr : List Event) : Bool :=
  decide ((tr.filter fun ev => match ev with | .gotoUrl _ => true | _ => false).length ≤ 1) &&
  decide ((tr.filter fun ev => match ev with | .waitForSelector _ _ => true | _ => false).length ≤ 1) &&
  decide ((tr.filter fun ev => match ev with | .readTitle => true | _ => false).length ≤ 1) &&
  decide ((tr.filter fun ev => match ev with | .screenshotCall _ => true | _ => false).length ≤ 2) &&
  decide ((tr.filter fun ev => match ev with
           | .screenshotCall p => p == dashboardPath
           | _ => false).length ≤ 1) &&
  decide ((tr.filter fun ev => match ev with
           | .screenshotCall p => p == errorPath
           | _ => false).length ≤ 1)

/-- A simple file-system model: replaying the writes of a trace over a
list of existing files.  A write to an existing path overwrites it in
place (playwright's `screenshot(path=...)` truncates); a write to a new
path creates the file. -/
def applyWrites (fs : List String) (tr : List Event) : List String :=
  tr.foldl
    (fun fs ev =>
      match ev with
      | .fileWrite p => if p ∈ fs then fs else fs ++ [p]
      | _ => fs)
    fs

/-- An environment in which every call succeeds and the page title is
"Finance Manager". -/
def okEnv : Env :=
  { launchResult := .ok (), newPageResult := .ok (), sleepResult := .ok ()
    gotoResult := .ok (), waitForSelectorResult := .ok ()
    titleResult := .ok "Finance Manager"
    screenshotDashboardResult := .ok (), screenshotErrorResult := .ok ()
    closeResult := .ok () }

/-- An unreachable application: `page.goto` raises with a
connection-refused message; everything browser-side works. -/
def connRefusedEnv : Env :=
  { okEnv with gotoResult := .error "net::ERR_CONNECTION_REFUSED at http://localhost:3000" }

/-- A reachable application serving an `h1` whose page title is the empty
string. -/
def emptyTitleEnv : Env :=
  { okEnv with titleResult := .ok "" }

/-- A reachable application that never renders an `h1`: the element wait
raises with playwright's timeout message. -/
def timeoutEnv : Env :=
  { okEnv with waitForSelectorResult := .error "Timeout 30000ms exceeded." }

/-- Browser launch itself raises (e.g. no browser executable). -/
def launchFailEnv : Env :=
  { okEnv with launchResult := .error "Executable does not exist" }

/-- Doubly-failing run: navigation raises, and the best-effort error
screenshot raises as well. -/
def doubleFailEnv : Env :=
  { okEnv with
      gotoResult := .error "net::ERR_CONNECTION_REFUSED at http://localhost:3000"
      screenshotErrorResult := .error "Target page, context or browser has been closed" }

/-- Whether a console line starts with the error tag `"Error: "` that the
script's handler prints. -/
def startsWithErrorTag (s : String) : Bool := "Error: ".data.isPrefixOf s.data

/-- Modelled from the spec's words (testable property 1), for comparison
with the code: a run's success output is the dashboard screenshot file
plus a console line carrying a non-empty page-title string. -/
def specSuccessOutput (env : Env) : Prop :=
  Event.fileWrite dashboardPath ∈ (verify_app env).trace ∧
  ∃ t, env.titleResult = Except.ok t ∧ t ≠ "" ∧
    Event.printLine ("Page title: " ++ t) ∈ (verify_app env).trace

set_option maxRecDepth 8000

/-- In any run, the files written are nothing, exactly the dashboard
screenshot, or exactly the error screenshot. -/
lemma writtenPaths_cases (env : Env) :
    writtenPaths (verify_app env).trace = [] ∨
    writtenPaths (verify_app env).trace = [dashboardPath] ∨
    writtenPaths (verify_app env).trace = [errorPath] := by
  obtain ⟨l, np, sl, g, w, t, sd, se, c⟩ := env
  cases l <;> cases np <;> cases sl <;> cases g <;> cases w <;> cases t <;>
    cases sd <;> cases se <;> cases c <;>
    simp [verify_app, tryExceptFinally, tryBlock, exceptClause, writtenPaths]

/-- Replaying a trace on the file-system model only looks at the writes. -/
lemma applyWrites_eq (fs : List String) (tr : List Event) :
    applyWrites fs tr
      = (writtenPaths tr).foldl (fun fs p => if p ∈ fs then fs else fs ++ [p]) fs := by
  induction tr generalizing fs with
  | nil => rfl
  | cons ev tl ih =>
    cases ev <;> simp [applyWrites, writtenPaths, List.foldl_cons, List.filterMap_cons] <;>
      exact ih _

/-- The page-title console line is never the empty string. -/
lemma titleLine_ne_empty (t : String) : ("Page title: " ++ t) ≠ "" := by
  intro h
  have h2 := congrArg String.length h
  rw [String.length_append] at h2
  have hp : ("Page title: " : String).length = 12 := rfl
  have he : ("" : String).length = 0 := rfl
  omega

/-- C1: whenever the verification steps (navigation, element wait, title
read, success-screenshot write) may raise arbitrarily but the handler's
own operations (the best-effort error screenshot and `browser.close()`)
return normally, `verify_app` returns normally: the exception is handled
internally, the browser is closed and the playwright context exits, and
the caller never sees a failure. -/
theorem verify_app_no_reraise (env : Env)
    (hl : env.launchResult = .ok ()) (hn : env.newPageResult = .ok ())
    (hs : env.sleepResult = .ok ()) (hse : env.screenshotErrorResult = .ok ())
    (hc : env.closeResult = .ok ()) :
    (verify_app env).outcome = .ok () ∧
    Event.closeBrowser true ∈ (verify_app env).trace ∧
    Event.stopPlaywright ∈ (verify_app env).trace := by
  obtain ⟨l, np, sl, g, w, t, sd, se, c⟩ := env
  simp only at hl hn hs hse hc
  subst hl hn hs hse hc
  cases g <;> cases w <;> cases t <;> cases sd <;>
    simp [verify_app, tryExceptFinally, tryBlock, exceptClause]

/-- Witness for C1: the connection-refused run returns normally with the
browser closed. -/
theorem verify_app_no_reraise_witness :
    (verify_app connRefusedEnv).outcome = .ok () ∧
    Event.closeBrowser true ∈ (verify_app connRefusedEnv).trace ∧
    Event.stopPlaywright ∈ (verify_app connRefusedEnv).trace :=
  verify_app_no_reraise connRefusedEnv rfl rfl rfl rfl rfl

/-- C2: after any run of `verify_app`, whatever the environment did, no
browser process is left alive: either the `finally` clause closed it or
the `with sync_playwright()` exit tore it down. -/
theorem browser_always_released (env : Env) :
    browserAliveAfter (verify_app env).trace = false := by
  obtain ⟨l, np, sl, g, w, t, sd, se, c⟩ := env
  cases l <;> cases np <;> cases sl <;> cases g <;> cases w <;> cases t <;>
    cases sd <;> cases se <;> cases c <;>
    simp [verify_app, tryExceptFinally, tryBlock, exceptClause, browserAliveAfter]

/-- C3, counterexample: in an environment where the application is
reachable and serves an `h1` within the timeout but reports an empty page
title, the run's console output carries no non-empty page-title string,
so the claim as stated fails. -/
theorem nonempty_title_not_guaranteed :
    connRefusedEnv ≠ emptyTitleEnv ∧
    emptyTitleEnv.gotoResult = .ok () ∧
    emptyTitleEnv.waitForSelectorResult = .ok () ∧
    ¬ specSuccessOutput emptyTitleEnv := by
  refine ⟨by simp [connRefusedEnv, emptyTitleEnv, okEnv], rfl, rfl, ?_⟩
  rintro ⟨-, t, ht, hne, -⟩
  have h : t = "" := by
    have h0 : emptyTitleEnv.titleResult = Except.ok "" := rfl
    rw [h0] at ht
    exact (Except.ok.injEq _ _).mp ht.symm
  exact hne h

/-- C3, amended: for every environment in which the application is
reachable, serves an `h1` within the timeout, reports page title `t`, and
the browser-side calls succeed, the run writes
`verification/dashboard.png` and prints the (always non-empty) console
line `"Page title: " ++ t`; the title `t` itself may be empty. -/
theorem dashboard_written_and_title_line_logged (env : Env) (t : String)
    (hl : env.launchResult = .ok ()) (hn : env.newPageResult = .ok ())
    (hs : env.sleepResult = .ok ()) (hg : env.gotoResult = .ok ())
    (hw : env.waitForSelectorResult = .ok ()) (ht : env.titleResult = .ok t)
    (hsd : env.screenshotDashboardResult = .ok ()) :
    Event.fileWrite dashboardPath ∈ (verify_app env).trace ∧
    Event.printLine ("Page title: " ++ t) ∈ (verify_app env).trace ∧
    ("Page title: " ++ t) ≠ "" := by
  obtain ⟨l, np, sl, g, w, tt, sd, se, c⟩ := env
  simp only at hl hn hs hg hw ht hsd
  subst hl hn hs hg hw ht hsd
  refine ⟨?_, ?_, titleLine_ne_empty t⟩ <;>
    cases se <;> cases c <;>
    simp [verify_app, tryExceptFinally, tryBlock, exceptClause]

/-- Witness for C3's amended theorem: the all-succeeding run writes the
dashboard screenshot and logs the title line. -/
theorem dashboard_written_and_title_line_logged_witness :
    Event.fileWrite dashboardPath ∈ (verify_app okEnv).trace ∧
    Event.printLine ("Page title: " ++ "Finance Manager") ∈ (verify_app okEnv).trace ∧
    ("Page title: " ++ "Finance Manager") ≠ "" :=
  dashboard_written_and_title_line_logged okEnv "Finance Manager"
    rfl rfl rfl rfl rfl rfl rfl

/-- C4: when navigation, the element wait (e.g. selector timeout), or the
success-screenshot capture raises with message `e`, the single top-level
handler catches it: the run prints the console line `"Error: " ++ e`,
writes the best-effort `verification/error.png`, and no external call is
retried. -/
theorem failure_logged_screenshotted_no_retry (env : Env) (e : ExnMsg)
    (hl : env.launchResult = .ok ()) (hn : env.newPageResult = .ok ())
    (hs : env.sleepResult = .ok ()) (hse : env.screenshotErrorResult = .ok ())
    (hfail : env.gotoResult = .error e ∨
      (env.gotoResult = .ok () ∧ env.waitForSelectorResult = .error e) ∨
      (env.gotoResult = .ok () ∧ env.waitForSelectorResult = .ok () ∧
        (∃ s, env.titleResult = .ok s) ∧ env.screenshotDashboardResult = .error e)) :
    Event.printLine ("Error: " ++ e) ∈ (verify_app env).trace ∧
    Event.fileWrite errorPath ∈ (verify_app env).trace ∧
    noRetry (verify_app env).trace = true := by
  obtain ⟨l, np, sl, g, w, t, sd, se, c⟩ := env
  simp only at hl hn hs hse hfail
  subst hl hn hs hse
  rcases hfail with hg | ⟨hg, hw⟩ | ⟨hg, hw, ⟨s, ht⟩, hsd⟩
  · subst hg
    cases w <;> cases t <;> cases sd <;> cases c <;>
      simp [verify_app, tryExceptFinally, tryBlock, exceptClause, noRetry,
        dashboardPath, errorPath]
  · subst hg hw
    cases t <;> cases sd <;> cases c <;>
      simp [verify_app, tryExceptFinally, tryBlock, exceptClause, noRetry,
        dashboardPath, errorPath]
  · subst hg hw ht hsd
    cases c <;>
      simp [verify_app, tryExceptFinally, tryBlock, exceptClause, noRetry,
        dashboardPath, errorPath]

/-- Witness for C4: the connection-refused run logs the error text,
writes the error screenshot, and retries nothing. -/
theorem failure_logged_screenshotted_no_retry_witness :
    Event.printLine ("Error: " ++ "net::ERR_CONNECTION_REFUSED at http://localhost:3000")
      ∈ (verify_app connRefusedEnv).trace ∧
    Event.fileWrite errorPath ∈ (verify_app connRefusedEnv).trace ∧
    noRetry (verify_app connRefusedEnv).trace = true :=
  failure_logged_screenshotted_no_retry connRefusedEnv
    "net::ERR_CONNECTION_REFUSED at http://localhost:3000"
    rfl rfl rfl rfl (Or.inl rfl)

/-- C5: in every run the verification-step events form an initial segment
of the fixed chain sleep(10) → goto → wait_for_selector → title read →
success screenshot: each step runs at most once, in that order, and a
later step runs only if all earlier ones did (strict linear order, no
branching).  Moreover, when the element never appears within the timeout
the wait step raises, aborting the `try` block with that error. -/
theorem steps_strictly_ordered (env : Env) :
    stepEvents (verify_app env).trace
      = mainStepChain.take (stepEvents (verify_app env).trace).length ∧
    (∀ e, env.gotoResult = .ok () → env.waitForSelectorResult = .error e →
      (tryBlock env).2 = .error e) := by
  constructor
  · obtain ⟨l, np, sl, g, w, t, sd, se, c⟩ := env
    cases l <;> cases np <;> cases sl <;> cases g <;> cases w <;> cases t <;>
      cases sd <;> cases se <;> cases c <;> rfl
  · intro e hg hw
    obtain ⟨l, np, sl, g, w, t, sd, se, c⟩ := env
    simp only at hg hw
    subst hg hw
    rfl

/-- Witness for C5: in the run whose element wait times out, the step
events are the first two links of the chain and the `try` block aborts
with the timeout error. -/
theorem steps_strictly_ordered_witness :
    stepEvents (verify_app timeoutEnv).trace
      = mainStepChain.take (stepEvents (verify_app timeoutEnv).trace).length ∧
    (tryBlock timeoutEnv).2 = .error "Timeout 30000ms exceeded." :=
  ⟨(steps_strictly_ordered timeoutEnv).1,
   (steps_strictly_ordered timeoutEnv).2 "Timeout 30000ms exceeded." rfl rfl⟩

/-- C6: every run writes at most one screenshot file — nothing, only
`verification/dashboard.png`, or only `verification/error.png`, never
both; a run whose `try` block completes writes exactly the dashboard
screenshot, and a run whose `try` block raises never writes it. -/
theorem one_screenshot_per_outcome (env : Env) :
    (writtenPaths (verify_app env).trace = [] ∨
     writtenPaths (verify_app env).trace = [dashboardPath] ∨
     writtenPaths (verify_app env).trace = [errorPath]) ∧
    (env.launchResult = .ok () → env.newPageResult = .ok () →
      env.sleepResult = .ok () → (tryBlock env).2 = .ok () →
      writtenPaths (verify_app env).trace = [dashboardPath]) ∧
    (∀ e, (tryBlock env).2 = .error e →
      Event.fileWrite dashboardPath ∉ (verify_app env).trace) := by
  refine ⟨writtenPaths_cases env, ?_, ?_⟩
  · intro hl hn hs htb
    obtain ⟨l, np, sl, g, w, t, sd, se, c⟩ := env
    simp only at hl hn hs
    subst hl hn hs
    cases g <;> cases w <;> cases t <;> cases sd <;> cases se <;> cases c <;>
      simp_all [verify_app, tryExceptFinally, tryBlock, exceptClause, writtenPaths,
        dashboardPath, errorPath]
  · intro e htb
    obtain ⟨l, np, sl, g, w, t, sd, se, c⟩ := env
    cases l <;> cases np <;> cases sl <;> cases g <;> cases w <;> cases t <;>
      cases sd <;> cases se <;> cases c <;>
      simp_all [verify_app, tryExceptFinally, tryBlock, exceptClause,
        dashboardPath, errorPath]

/-- Witness for C6: the all-succeeding run writes exactly the dashboard
screenshot, and the connection-refused run (whose try block raises) never
writes it. -/
theorem one_screenshot_per_outcome_witness :
    writtenPaths (verify_app okEnv).trace = [dashboardPath] ∧
    Event.fileWrite dashboardPath ∉ (verify_app connRefusedEnv).trace :=
  ⟨(one_screenshot_per_outcome okEnv).2.1 rfl rfl rfl rfl,
   (one_screenshot_per_outcome connRefusedEnv).2.2
     "net::ERR_CONNECTION_REFUSED at http://localhost:3000" rfl⟩

/-- C7: the screenshot paths are run-independent constants.  Replaying
any two consecutive runs on the file-system model (screenshot writes
overwrite an existing file and never append) leaves at most the two fixed
files `verification/dashboard.png` and `verification/error.png`; no other
file is ever created and repetition creates nothing new. -/
theorem fixed_output_paths_two_runs (env₁ env₂ : Env) :
    (applyWrites (applyWrites [] (verify_app env₁).trace) (verify_app env₂).trace).length ≤ 2 ∧
    (applyWrites (applyWrites [] (verify_app env₁).trace) (verify_app env₂).trace = [] ∨
     applyWrites (applyWrites [] (verify_app env₁).trace) (verify_app env₂).trace = [dashboardPath] ∨
     applyWrites (applyWrites [] (verify_app env₁).trace) (verify_app env₂).trace = [errorPath] ∨
     applyWrites (applyWrites [] (verify_app env₁).trace) (verify_app env₂).trace
       = [dashboardPath, errorPath] ∨
     applyWrites (applyWrites [] (verify_app env₁).trace) (verify_app env₂).trace
       = [errorPath, dashboardPath]) := by
  rw [applyWrites_eq, applyWrites_eq]
  rcases writtenPaths_cases env₁ with h1 | h1 | h1 <;>
    rcases writtenPaths_cases env₂ with h2 | h2 | h2 <;>
    rw [h1, h2] <;> decide

/-- C8: an exception raised before the `try` block begins — in browser
launch, page creation, or the startup sleep — bypasses the handler:
`verify_app` propagates it to its caller, no console line starting with
`"Error: "` is printed, `verification/error.png` is not written, and
`browser.close()` never runs; only the playwright context exit performs
teardown. -/
theorem prelaunch_exception_skips_handler (env : Env) (e : ExnMsg)
    (hfail : env.launchResult = .error e ∨
      (env.launchResult = .ok () ∧ env.newPageResult = .error e) ∨
      (env.launchResult = .ok () ∧ env.newPageResult = .ok () ∧
        env.sleepResult = .error e)) :
    (verify_app env).outcome = .error e ∧
    (∀ s, Event.printLine s ∈ (verify_app env).trace → startsWithErrorTag s = false) ∧
    Event.fileWrite errorPath ∉ (verify_app env).trace ∧
    (∀ b, Event.closeBrowser b ∉ (verify_app env).trace) ∧
    Event.stopPlaywright ∈ (verify_app env).trace := by
  obtain ⟨l, np, sl, g, w, t, sd, se, c⟩ := env
  simp only at hfail
  rcases hfail with hl | ⟨hl, hn⟩ | ⟨hl, hn, hsl⟩
  · subst hl
    refine ⟨rfl, ?_, ?_, ?_, ?_⟩ <;> simp [verify_app]
  · subst hl hn
    refine ⟨rfl, ?_, ?_, ?_, ?_⟩ <;> simp [verify_app]
  · subst hl hn hsl
    refine ⟨rfl, ?_, ?_, ?_, ?_⟩ <;> (simp [verify_app]; try decide)

/-- Witness for C8: with a failing browser launch, the exception
propagates, nothing error-related is printed or written, and the browser
is never explicitly closed. -/
theorem prelaunch_exception_skips_handler_witness :
    (verify_app launchFailEnv).outcome = .error "Executable does not exist" ∧
    (∀ s, Event.printLine s ∈ (verify_app launchFailEnv).trace →
      startsWithErrorTag s = false) ∧
    Event.fileWrite errorPath ∉ (verify_app launchFailEnv).trace ∧
    (∀ b, Event.closeBrowser b ∉ (verify_app launchFailEnv).trace) ∧
    Event.stopPlaywright ∈ (verify_app launchFailEnv).trace :=
  prelaunch_exception_skips_handler launchFailEnv "Executable does not exist"
    (Or.inl rfl)

/-- C9: when the `try` block raises with `e` and the best-effort error
screenshot in the handler then raises with `e2`, the `finally` clause
still runs `browser.close()` after the failing screenshot call and before
`e2` propagates out of `verify_app`. -/
theorem error_screenshot_failure_still_closes_browser (env : Env) (e e2 : ExnMsg)
    (hl : env.launchResult = .ok ()) (hn : env.newPageResult = .ok ())
    (hs : env.sleepResult = .ok ())
    (htb : (tryBlock env).2 = .error e)
    (hse : env.screenshotErrorResult = .error e2)
    (hc : env.closeResult = .ok ()) :
    (verify_app env).outcome = .error e2 ∧
    (verify_app env).trace
      = ([Event.launchBrowser true, Event.newPage,
          Event.printLine "Waiting for app to start...", Event.sleepSeconds 10]
          ++ (tryBlock env).1 ++ [Event.printLine ("Error: " ++ e)])
        ++ [Event.screenshotCall errorPath, Event.closeBrowser true,
            Event.stopPlaywright] := by
  obtain ⟨l, np, sl, g, w, t, sd, se, c⟩ := env
  simp only at hl hn hs hse hc htb ⊢
  subst hl hn hs hse hc
  constructor
  · simp [verify_app, tryExceptFinally, htb, exceptClause]
  · simp [verify_app, tryExceptFinally, htb, exceptClause]

/-- Witness for C9: in the doubly-failing run (navigation refused, error
screenshot raises too) the browser is still closed before the screenshot
exception propagates. -/
theorem error_screenshot_failure_still_closes_browser_witness :
    (verify_app doubleFailEnv).outcome
      = .error "Target page, context or browser has been closed" ∧
    (verify_app doubleFailEnv).trace
      = ([Event.launchBrowser true, Event.newPage,
          Event.printLine "Waiting for app to start...", Event.sleepSeconds 10]
          ++ (tryBlock doubleFailEnv).1
          ++ [Event.printLine
                ("Error: " ++ "net::ERR_CONNECTION_REFUSED at http://localhost:3000")])
        ++ [Event.screenshotCall errorPath, Event.closeBrowser true,
            Event.stopPlaywright] :=
  error_screenshot_failure_still_closes_browser doubleFailEnv
    "net::ERR_CONNECTION_REFUSED at http://localhost:3000"
    "Target page, context or browser has been closed"
    rfl rfl rfl rfl rfl rfl

/-- C10: the fixed parameters have their exact source values in every
run: every sleep event sleeps 10 seconds, every navigation targets
http://localhost:3000, and every element wait is for selector "h1" with a
30000 ms timeout; and whenever the corresponding call is reached, the
event with exactly these values occurs. -/
theorem fixed_parameters (env : Env) :
    (verify_app env).trace.all hasFixedParams = true ∧
    (env.launchResult = .ok () → env.newPageResult = .ok () →
      Event.sleepSeconds 10 ∈ (verify_app env).trace) ∧
    (env.launchResult = .ok () → env.newPageResult = .ok () →
      env.sleepResult = .ok () →
      Event.gotoUrl "http://localhost:3000" ∈ (verify_app env).trace) ∧
    (env.launchResult = .ok () → env.newPageResult = .ok () →
      env.sleepResult = .ok () → env.gotoResult = .ok () →
      Event.waitForSelector "h1" 30000 ∈ (verify_app env).trace) := by
  obtain ⟨l, np, sl, g, w, t, sd, se, c⟩ := env
  refine ⟨?_, ?_, ?_, ?_⟩
  · cases l <;> cases np <;> cases sl <;> cases g <;> cases w <;> cases t <;>
      cases sd <;> cases se <;> cases c <;>
      simp [verify_app, tryExceptFinally, tryBlock, exceptClause, hasFixedParams,
        targetUrl, dashboardPath, errorPath]
  · intro hl hn
    simp only at hl hn
    subst hl hn
    cases sl <;> cases g <;> cases w <;> cases t <;> cases sd <;> cases se <;>
      cases c <;>
      simp [verify_app, tryExceptFinally, tryBlock, exceptClause]
  · intro hl hn hs
    simp only at hl hn hs
    subst hl hn hs
    cases g <;> cases w <;> cases t <;> cases sd <;> cases se <;> cases c <;>
      simp [verify_app, tryExceptFinally, tryBlock, exceptClause, targetUrl]
  · intro hl hn hs hg
    simp only at hl hn hs hg
    subst hl hn hs hg
    cases w <;> cases t <;> cases sd <;> cases se <;> cases c <;>
      simp [verify_app, tryExceptFinally, tryBlock, exceptClause]

/-- Witness for C10: the all-succeeding run carries exactly the fixed
parameter values. -/
theorem fixed_parameters_witness :
    (verify_app okEnv).trace.all hasFixedParams = true ∧
    Event.sleepSeconds 10 ∈ (verify_app okEnv).trace ∧
    Event.gotoUrl "http://localhost:3000" ∈ (verify_app okEnv).trace ∧
    Event.waitForSelector "h1" 30000 ∈ (verify_app okEnv).trace :=
  ⟨(fixed_parameters okEnv).1,
   (fixed_parameters okEnv).2.1 rfl rfl,
   (fixed_parameters okEnv).2.2.1 rfl rfl rfl,
   (fixed_parameters okEnv).2.2.2 rfl rfl rfl rfl⟩

end VerifyDashboard
